import Mathlib

/-!
Formal model of the WhatsApp archive backend (session orchestrator,
ingestion pipeline, message persistence layer), shallowly embedded from the
JavaScript source:

- src/services/whatsappService.js  (WhatsAppService class)
- src/models/Message.js            (Message model)
- src/models/WhatsAppSession.js    (WhatsAppSession model)
- src/controllers/whatsappController.js

JavaScript values are modelled with explicit option types; the
short-circuiting `a || b` on strings (where the empty string is falsy) is
modelled by jsOr below.  Asynchronous, event-driven code is modelled either
as a pure function of an environment describing the outcomes of external
operations, or (for the concurrent initialization registry) as a small-step
interleaving semantics over an explicit orchestrator state.
-/

/-- JavaScript string defaulting: `a || b` where both missing values and the
empty string are falsy.  Used for the `||` chains in formatMessage and in
the Message model. -/
def jsOr (a : Option String) (b : String) : String :=
  match a with
  | none => b
  | some s => if s = "" then b else s

namespace Format

/-- The timestamp field of a raw client message: either a JavaScript number
or some non-number value (undefined, null, string, ...), which the source
tests with `typeof timestamp === "number"`. -/
inductive JsTimestamp where
  | num (n : Int)
  | notNum
  deriving DecidableEq, Repr

/-- A raw message object as delivered by the external chat client, with the
fields read by WhatsAppService.formatMessage
(src/services/whatsappService.js lines 626-647). -/
structure RawMessage where
  idSerialized : String
  fromMe : Bool
  notifyName : Option String
  author : Option String
  fromJid : String
  body : Option String
  type : Option String
  timestamp : JsTimestamp
  deriving DecidableEq, Repr

/-- The normalized message record produced by formatMessage. -/
structure FormattedMessage where
  messageId : String
  fromMe : Bool
  senderName : String
  senderNumber : String
  body : String
  messageType : String
  timestamp : Int
  deriving DecidableEq, Repr

/-- WhatsAppService.formatMessage (src/services/whatsappService.js lines
626-647).  `now` stands for Date.now(), the fallback for a non-numeric
timestamp.  Numeric timestamps below 1e12 are treated as epoch seconds and
scaled to milliseconds. -/
def formatMessage (now : Int) (m : RawMessage) : FormattedMessage :=
  let timestamp : Int :=
    match m.timestamp with
    | .num n => if n < 10 ^ 12 then n * 1000 else n
    | .notNum => now
  { messageId := m.idSerialized
    fromMe := m.fromMe
    senderName := jsOr m.notifyName (jsOr m.author "Unknown")
    senderNumber := jsOr m.author m.fromJid
    body := jsOr m.body ""
    messageType := jsOr m.type "text"
    timestamp := timestamp }

end Format

namespace Facade

/-- The identity object the external chat client exposes once connected
(client.info); populated means the option is some. -/
structure ClientInfo where
  wid : String
  pushname : String
  deriving DecidableEq, Repr

/-- A ClientHandle as stored in the WhatsAppService.clients map; info is
none until the client reaches Ready. -/
structure Client where
  info : Option ClientInfo
  deriving DecidableEq, Repr

/-- The in-memory state of the WhatsAppService singleton: the three maps
created in the constructor (src/services/whatsappService.js lines 8-12),
keyed by user id. -/
structure ServiceState where
  clients : Nat → Option Client
  qrCodes : Nat → Option String
  initializationPromises : Nat → Bool

/-- WhatsAppService.isClientReady (src/services/whatsappService.js lines
691-694): the truthiness of `client && client.info`, a pure lookup in the
in-memory clients map (no persistence-gateway access appears in its body). -/
def isClientReady (s : ServiceState) (userId : Nat) : Bool :=
  match s.clients userId with
  | none => false
  | some c => c.info.isSome

end Facade

namespace MessageModel

/-- A formatted message as passed to the Message model (the object
destructured by Message.create and Message.bulkCreate in
src/models/Message.js).  messageType is optional: both query builders apply
the JavaScript default `msg.messageType || "text"`. -/
structure MsgInput where
  messageId : String
  fromMe : Bool
  senderName : String
  senderNumber : String
  body : String
  messageType : Option String
  timestamp : Int
  deriving DecidableEq, Repr

/-- One row of the messages table (src/migrations/004_create_messages.sql);
the unique key is (user_id, message_id). -/
structure Row where
  user_id : Nat
  chat_id : Nat
  message_id : String
  from_me : Bool
  sender_name : String
  sender_number : String
  body : String
  message_type : String
  timestamp : Int
  deriving DecidableEq, Repr

/-- The row a fresh insert of a message produces (the VALUES tuple shared by
Message.create, the bulk statement and the per-record fallback). -/
def toRow (userId chatId : Nat) (m : MsgInput) : Row :=
  { user_id := userId
    chat_id := chatId
    message_id := m.messageId
    from_me := m.fromMe
    sender_name := m.senderName
    sender_number := m.senderNumber
    body := m.body
    message_type := jsOr m.messageType "text"
    timestamp := m.timestamp }

/-- The ON DUPLICATE KEY UPDATE clause of the bulk statement and of its
per-record fallback (src/models/Message.js lines 157-159 and 184-186): only
sender_name and body are refreshed from the incoming values. -/
def bulkDupUpdate (stored incoming : Row) : Row :=
  { stored with sender_name := incoming.sender_name, body := incoming.body }

/-- The ON DUPLICATE KEY UPDATE clause of Message.create
(src/models/Message.js lines 22-27): sender_name, sender_number, body,
message_type and timestamp are refreshed from the incoming values. -/
def createDupUpdate (stored incoming : Row) : Row :=
  { stored with
      sender_name := incoming.sender_name
      sender_number := incoming.sender_number
      body := incoming.body
      message_type := incoming.message_type
      timestamp := incoming.timestamp }

/-- Whether a stored row collides with an incoming row on the unique key
(user_id, message_id). -/
def keyMatches (r v : Row) : Bool :=
  r.user_id == v.user_id && r.message_id == v.message_id

/-- MySQL upsert of one VALUES tuple against the messages table: on a
duplicate key the given update clause is applied to the stored row,
otherwise the row is appended. -/
def upsertWith (dup : Row → Row → Row) (db : List Row) (v : Row) : List Row :=
  if db.any (fun r => keyMatches r v) then
    db.map (fun r => if keyMatches r v then dup r v else r)
  else
    db ++ [v]

/-- Message.create (src/models/Message.js lines 4-50): a single-row upsert
whose duplicate-key clause is createDupUpdate. -/
def create (userId chatId : Nat) (m : MsgInput) (db : List Row) : List Row :=
  upsertWith createDupUpdate db (toRow userId chatId m)

/-- Effect of one successful multi-row bulk statement: each VALUES tuple is
upserted in order with the bulk duplicate-key clause. -/
def applyBulk (db : List Row) (rows : List Row) : List Row :=
  rows.foldl (upsertWith bulkDupUpdate) db

/-- The batch size hardcoded in Message.bulkCreate
(src/models/Message.js line 124). -/
def batchSize : Nat := 100

/-- Cutting a list into consecutive slices of at most batchSize, mirroring
the loop `for (let i = 0; i < messages.length; i += batchSize)` with
`messages.slice(i, i + batchSize)`.  Fuel-driven for termination; the fuel
is instantiated with the list length. -/
def chunksAux : Nat → List MsgInput → List (List MsgInput)
  | 0, _ => []
  | _ + 1, [] => []
  | fuel + 1, m :: rest =>
      (m :: rest).take batchSize :: chunksAux fuel ((m :: rest).drop batchSize)

/-- The batches Message.bulkCreate processes, in order. -/
def chunks (l : List MsgInput) : List (List MsgInput) :=
  chunksAux l.length l

/-- Outcomes of the persistence gateway during one bulkCreate run:
whether the bulk statement of a given batch index throws, and whether the
per-record fallback insert for a given external message id throws. -/
structure BulkEnv where
  bulkFails : Nat → Bool
  singleFails : String → Bool

/-- A query issued to the persistence gateway by bulkCreate: one multi-row
bulk statement, or one per-record fallback statement. -/
inductive Query where
  | bulk (rows : List Row)
  | single (row : Row)
  deriving DecidableEq, Repr

/-- Running state threaded through the batch loop of Message.bulkCreate:
the table contents, the queries issued so far, and the `results` array. -/
structure BulkState where
  db : List Row
  queries : List Query
  results : List MsgInput
  deriving Repr

/-- One iteration of the per-record fallback loop
(src/models/Message.js lines 176-202): the insert is attempted; on failure
it is logged and skipped, on success the row is upserted and the record is
appended to results. -/
def runSingle (env : BulkEnv) (userId chatId : Nat) (st : BulkState)
    (m : MsgInput) : BulkState :=
  let r := toRow userId chatId m
  if env.singleFails m.messageId then
    { st with queries := st.queries ++ [Query.single r] }
  else
    { db := upsertWith bulkDupUpdate st.db r
      queries := st.queries ++ [Query.single r]
      results := st.results ++ [m] }

/-- One iteration of the batch loop of Message.bulkCreate
(src/models/Message.js lines 127-204): try one bulk statement for the whole
batch; if it throws, the statement has no effect and every record of the
batch is retried individually. -/
def runBatch (env : BulkEnv) (userId chatId : Nat) (idx : Nat)
    (st : BulkState) (batch : List MsgInput) : BulkState :=
  let rows := batch.map (toRow userId chatId)
  if env.bulkFails idx then
    batch.foldl (runSingle env userId chatId)
      { st with queries := st.queries ++ [Query.bulk rows] }
  else
    { db := applyBulk st.db rows
      queries := st.queries ++ [Query.bulk rows]
      results := st.results ++ batch }

/-- Message.bulkCreate (src/models/Message.js lines 114-213).  A missing
(null/undefined) or empty message list returns immediately; otherwise the
list is processed in consecutive batches of at most batchSize. -/
def bulkCreate (env : BulkEnv) (userId chatId : Nat)
    (messages : Option (List MsgInput)) (db : List Row) : BulkState :=
  match messages with
  | none => ⟨db, [], []⟩
  | some l =>
    if l.isEmpty then ⟨db, [], []⟩
    else
      (chunks l).enum.foldl
        (fun st p => runBatch env userId chatId p.1 st p.2) ⟨db, [], []⟩

end MessageModel

namespace Ingestion

/-- Result of one awaited external operation: a value, or a thrown error
message. -/
inductive Outcome (α : Type) where
  | ok (val : α)
  | error (msg : String)
  deriving DecidableEq, Repr

/-- Environment describing one conversation and the outcomes of the
external-client and persistence-gateway operations the per-chat loop body
of fetchAndSaveMessages performs on it: upserting the ConversationRecord
(Chat.create), fetching the message history (chat.fetchMessages), and the
save block (Message.bulkCreate plus Chat.updateLastMessageTime).  Messages
are abstracted to opaque identifiers since only their count is observed in
the per-chat result. -/
structure ChatEnv where
  chatIdSer : String
  chatName : String
  isGroup : Bool
  createOutcome : Outcome Unit
  fetchOutcome : Outcome (List Nat)
  saveOutcome : Outcome Unit
  deriving DecidableEq, Repr

/-- One entry of the per-conversation results array built by
fetchAndSaveMessages (src/services/whatsappService.js lines 578-586 and
597-604). -/
structure ChatResult where
  chatId : String
  chatName : String
  isGroup : Bool
  messageCount : Nat
  status : String
  error : Option String
  deriving DecidableEq, Repr

/-- The per-conversation body of fetchAndSaveMessages
(src/services/whatsappService.js lines 508-608).  A throw from Chat.create
reaches the outer per-chat catch and records a status-error entry; a throw
from chat.fetchMessages is caught at lines 548-552 and replaced by an empty
message list, after which the loop body proceeds to the status-success
entry; a throw from the save block is caught at lines 570-573 and also
leaves the status-success entry untouched. -/
def processChat (c : ChatEnv) : ChatResult :=
  match c.createOutcome with
  | .error e => ⟨c.chatIdSer, c.chatName, c.isGroup, 0, "error", some e⟩
  | .ok _ =>
    let messages : List Nat :=
      match c.fetchOutcome with
      | .ok ms => ms
      | .error _ => []
    ⟨c.chatIdSer, c.chatName, c.isGroup, messages.length, "success", none⟩

/-- Number of messages a conversation contributes to totalMessages: counted
only when the chat upsert succeeded, the fetch succeeded with a non-empty
list, and the save block did not throw
(src/services/whatsappService.js lines 555-574). -/
def savedCount (c : ChatEnv) : Nat :=
  match c.createOutcome, c.fetchOutcome, c.saveOutcome with
  | .ok _, .ok ms, .ok _ => ms.length
  | _, _, _ => 0

/-- One iteration of the chats loop, threading
(totalChatsProcessed, totalMessages, results). -/
def stepChat (acc : Nat × Nat × List ChatResult) (c : ChatEnv) :
    Nat × Nat × List ChatResult :=
  match c.createOutcome with
  | .error _ => (acc.1, acc.2.1, acc.2.2 ++ [processChat c])
  | .ok _ => (acc.1 + 1, acc.2.1 + savedCount c, acc.2.2 ++ [processChat c])

/-- The aggregate returned by fetchAndSaveMessages
(src/services/whatsappService.js lines 612-618). -/
structure RunResult where
  success : Bool
  totalChats : Nat
  totalChatsProcessed : Nat
  totalMessages : Nat
  chats : List ChatResult
  deriving DecidableEq, Repr

/-- WhatsAppService.fetchAndSaveMessages (src/services/whatsappService.js
lines 492-624), restricted to a run whose client is connected and whose
conversation enumeration succeeded; the per-chat loop is the foldl. -/
def fetchAndSaveMessages (chats : List ChatEnv) : RunResult :=
  let acc := chats.foldl stepChat (0, 0, [])
  ⟨true, chats.length, acc.1, acc.2.1, acc.2.2⟩

end Ingestion

namespace Controller

/-- Side effects of the deleteSession controller, in execution order. -/
inductive DeleteAction where
  | disconnectClient
  | sessionDelete
  deriving DecidableEq, Repr

/-- The HTTP-level outcome of a controller: res.json(...) on success or
res.status(500).json(...) on failure. -/
inductive HttpResponse where
  | ok (message : String)
  | serverError (error : String)
  deriving DecidableEq, Repr

/-- Environment for one deleteSession request: the result object
disconnectClient settles with (it never throws: every failure inside it is
caught and returned as success:false, src/services/whatsappService.js lines
696-714), and whether WhatsAppSession.delete throws
(src/models/WhatsAppSession.js lines 119-138 rethrow query errors). -/
structure DeleteEnv where
  disconnectSucceeds : Bool
  deleteError : Option String
  deriving DecidableEq, Repr

/-- The deleteSession controller (src/controllers/whatsappController.js
lines 161-177): await disconnectClient (result ignored), then await
WhatsAppSession.delete; a throw from the latter lands in the catch, which
logs and responds with status 500. -/
def deleteSession (env : DeleteEnv) : HttpResponse × List DeleteAction :=
  let trace := [DeleteAction.disconnectClient, DeleteAction.sessionDelete]
  match env.deleteError with
  | some _ => (HttpResponse.serverError "Failed to delete session", trace)
  | none => (HttpResponse.ok "Session deleted successfully", trace)

end Controller

namespace InitTimeout

/-- The initialization timeout hardcoded in _performInitialization
(src/services/whatsappService.js line 99), in milliseconds. -/
def initTimeoutMs : Nat := 50000

/-- What the connect attempt does, as seen by the race in
_performInitialization: the client fires ready at time t, fires
auth_failure at time t, client.initialize() rejects at time t, or nothing
ever settles. -/
inductive ConnectEvent where
  | ready (t : Nat)
  | authFailure (t : Nat) (msg : String)
  | initReject (t : Nat) (msg : String)
  | silent
  deriving DecidableEq, Repr

/-- How the race promise settles: resolution by the once-ready listener,
resolution by the once-auth_failure listener, or rejection (by the timeout
timer or by the initialize() rejection handler). -/
inductive RaceOutcome where
  | resolvedSuccess (message : String)
  | resolvedFailure (error : String)
  | rejected (error : String)
  deriving DecidableEq, Repr

/-- The race of src/services/whatsappService.js lines 95-118: the earliest
of the connect event and the 50000 ms timer wins; the timer rejects with
the fixed timeout message. -/
def raceResult (ev : ConnectEvent) : RaceOutcome × Nat :=
  match ev with
  | .ready t =>
    if t < initTimeoutMs then (.resolvedSuccess "Client connected", t)
    else (.rejected "Client initialization timed out", initTimeoutMs)
  | .authFailure t m =>
    if t < initTimeoutMs then
      (.resolvedFailure ("Authentication failed: " ++ m), t)
    else (.rejected "Client initialization timed out", initTimeoutMs)
  | .initReject t m =>
    if t < initTimeoutMs then (.rejected m, t)
    else (.rejected "Client initialization timed out", initTimeoutMs)
  | .silent => (.rejected "Client initialization timed out", initTimeoutMs)

/-- Observable outcome of _performInitialization: the settled race value
(returned when resolved, rethrown when rejected), the settlement time, and
whether the ClientHandle is still registered afterwards. -/
structure PerformOutcome where
  result : RaceOutcome
  settleTime : Nat
  clientInRegistry : Bool
  deriving DecidableEq, Repr

/-- _performInitialization (src/services/whatsappService.js lines 61-138):
the handle is stored before the race; only the catch block (reached on
rejection) destroys it and removes it from the clients map. -/
def performInitialization (ev : ConnectEvent) : PerformOutcome :=
  match raceResult ev with
  | (.rejected e, t) => ⟨.rejected e, t, false⟩
  | (o, t) => ⟨o, t, true⟩

/-- Observable outcome of one initializeClient call that actually starts an
initialization: the result object returned to the caller, the settlement
time, and the registry contents afterwards. -/
structure InitCallOutcome where
  success : Bool
  connected : Bool
  error : Option String
  settleTime : Nat
  clientInRegistry : Bool
  inFlightAfter : Bool
  deriving DecidableEq, Repr

/-- initializeClient (src/services/whatsappService.js lines 14-59) on the
path that registers an InFlightInitialization and awaits
_performInitialization: the finally block (line 51) removes the
in-flight entry on every settlement, and the catch block (lines 54-58)
converts a rethrown error into a success:false result carrying the error
message. -/
def initializeClient (ev : ConnectEvent) : InitCallOutcome :=
  let p := performInitialization ev
  match p.result with
  | .resolvedSuccess _ =>
    ⟨true, true, none, p.settleTime, p.clientInRegistry, false⟩
  | .resolvedFailure e =>
    ⟨false, false, some e, p.settleTime, p.clientInRegistry, false⟩
  | .rejected e =>
    ⟨false, false, some e, p.settleTime, p.clientInRegistry, false⟩

end InitTimeout

namespace ReadyHandler

/-- The three durable writes the ready handler schedules in the background
(the dbOperations array, src/services/whatsappService.js lines 196-217). -/
inductive WriteKind where
  | sessionData
  | setActive
  | phoneNumber
  deriving DecidableEq, Repr

/-- Observable actions of the ready handler, in program order: the ready
push event to the user channel, the PairingArtifact (cached QR) removal,
the start of one background durable write, and the secondary
session_saved push. -/
inductive Action where
  | emitReady (phoneNumber pushName : String)
  | clearQR
  | startWrite (w : WriteKind)
  | emitSessionSaved (success : Bool)
  deriving DecidableEq, Repr

/-- Environment for one run of the background phase: which of the three
independent writes fail, and when the settled-results promise of the three
writes would fulfil. -/
structure ReadyEnv where
  sessionDataFails : Bool
  setActiveFails : Bool
  phoneUpdateFails : Bool
  writesSettleTime : Nat
  deriving DecidableEq, Repr

/-- The background-phase timeout hardcoded at
src/services/whatsappService.js line 223, in milliseconds. -/
def dbOpsTimeoutMs : Nat := 10000

/-- The dbOperations array, in source order. -/
def dbOperations : List WriteKind :=
  [.sessionData, .setActive, .phoneNumber]

/-- Settled outcome of each background write.  Each operation carries its
own catch (lines 199-216), so a failing write settles as a fulfilled marker
value and the outcome of each write depends only on its own failure flag. -/
def writeResults (env : ReadyEnv) : List (WriteKind × Bool) :=
  [(.sessionData, !env.sessionDataFails),
   (.setActive, !env.setActiveFails),
   (.phoneNumber, !env.phoneUpdateFails)]

/-- When the background phase settles: the settled-results promise raced
against the 10000 ms rejection timer (lines 220-225). -/
def backgroundSettleTime (env : ReadyEnv) : Nat :=
  min env.writesSettleTime dbOpsTimeoutMs

/-- Action trace of the detached background phase (the setImmediate callback,
lines 184-258): all three writes are started, then either the settled
results are logged and session_saved success:true is pushed, or the timeout
rejection lands in the catch which pushes session_saved success:false. -/
def backgroundTrace (env : ReadyEnv) : List Action :=
  dbOperations.map Action.startWrite ++
    (if env.writesSettleTime ≤ dbOpsTimeoutMs then
      [Action.emitSessionSaved true]
    else
      [Action.emitSessionSaved false])

/-- The identity carried by the ready event (client.info). -/
structure ClientInfo where
  wid : String
  pushname : String
  deriving DecidableEq, Repr

/-- The ready-event handler registered by setupClientEvents
(src/services/whatsappService.js lines 163-272): emit the ready push event
first, delete the cached QR code, then schedule the background persistence
phase.  The Bool component is the connected flag of the initialization
result that the separate once-ready listener resolves with
(line 104); it is fixed at the ready event and never revisited by the
background phase. -/
def readyHandler (info : ClientInfo) (env : ReadyEnv) : List Action × Bool :=
  (Action.emitReady info.wid info.pushname :: Action.clearQR ::
    backgroundTrace env, true)

end ReadyHandler

namespace Dedup

/-- Control state of one initializeClient(userId) call for a fixed user,
between the suspension points of the source (src/services/whatsappService.js
lines 14-59).  entry: about to run the synchronous prefix (the in-flight
check at line 19 and the clients check at line 25).  destroying: suspended
in `await existingClient.destroy()` (line 34) on the stale-handle path.
awaitingOwn g: has registered in-flight initialization number g and awaits
it (line 47).  awaitingExisting g: found in-flight initialization number g
registered and awaits it (line 21).  doneAlready: returned the
already-connected result (line 29) without touching the client. -/
inductive TaskPC where
  | entry
  | destroying
  | awaitingOwn (gen : Nat)
  | awaitingExisting (gen : Nat)
  | doneAlready
  deriving DecidableEq, Repr

/-- Shared orchestrator state for one user id, plus the control points of
the concurrent initializeClient calls for that user.  hasClient /
clientReady model this.clients.get(userId) and its info field; inFlight
models this.initializationPromises.get(userId), tagged with the serial
number of the connect attempt it belongs to (the registry is a Map keyed
by user id, so it holds at most one entry per user by construction);
connects counts connect commands issued to the external chat client
(client.initialize() calls). -/
structure OrchState where
  hasClient : Bool
  clientReady : Bool
  inFlight : Option Nat
  connects : Nat
  tasks : List TaskPC
  deriving DecidableEq, Repr

/-- The synchronous prefix of initializeClient (lines 19-44): if an
in-flight entry exists, await it; else if a ready handle exists, return
already-connected; else if a stale handle exists, start awaiting its
teardown; else run _performInitialization synchronously up to its first
await — create and register the handle, issue the connect command, register
the in-flight entry — and start awaiting the result.  Everything in the
last branch happens inside one event-loop turn (there is no await between
line 19 and line 47), so it is one atomic segment. -/
def initSegment (s : OrchState) : OrchState × TaskPC :=
  match s.inFlight with
  | some g => (s, .awaitingExisting g)
  | none =>
    if s.hasClient then
      if s.clientReady then (s, .doneAlready)
      else (s, .destroying)
    else
      let g := s.connects + 1
      ({ s with hasClient := true, clientReady := false,
                inFlight := some g, connects := g },
       .awaitingOwn g)

/-- Resumption after `await existingClient.destroy()` (lines 34-47): delete
the stale handle, then run _performInitialization synchronously up to its
first await and register the in-flight entry.  The in-flight registry is
not re-checked on this path. -/
def destroySegment (s : OrchState) : OrchState × TaskPC :=
  let g := s.connects + 1
  ({ s with hasClient := true, clientReady := false,
            inFlight := some g, connects := g },
   .awaitingOwn g)

/-- One atomic segment of a task at the given control point.  Tasks that are
awaiting a settlement or already done take no step inside the window
modelled here (the window before the shared initialization settles). -/
def segment (s : OrchState) (pc : TaskPC) : OrchState × TaskPC :=
  match pc with
  | .entry => initSegment s
  | .destroying => destroySegment s
  | pc => (s, pc)

/-- Run the next atomic segment of task i (no-op on an invalid index). -/
def stepTask (s : OrchState) (i : Nat) : OrchState :=
  match s.tasks.get? i with
  | none => s
  | some pc =>
    let r := segment s pc
    { r.1 with tasks := s.tasks.set i r.2 }

/-- Run a schedule: an arbitrary interleaving of the concurrent calls,
given as the sequence of task indices chosen by the event loop. -/
def exec (s : OrchState) (sched : List Nat) : OrchState :=
  sched.foldl stepTask s

/-- Initial state for n concurrent initializeClient calls for a user with
no registered ClientHandle and no in-flight initialization. -/
def freshInit (n : Nat) : OrchState :=
  ⟨false, false, none, 0, List.replicate n .entry⟩

/-- Initial state for two concurrent initializeClient calls for a user that
still has a stale, non-ready ClientHandle registered (reachable, for
example, after an auth_failure settlement, which resolves the race without
removing the handle from the clients map). -/
def staleTwo : OrchState :=
  ⟨true, false, none, 0, [.entry, .entry]⟩

end Dedup

/-- Claim C10: Message.bulkCreate called with a null, undefined, or empty
message list returns the empty results list immediately, leaves the table
untouched, and issues no persistence-gateway query. -/
theorem C10_bulkCreate_empty_short_circuit :
    ∀ (env : MessageModel.BulkEnv) (userId chatId : Nat)
      (db : List MessageModel.Row),
      MessageModel.bulkCreate env userId chatId none db =
        { db := db, queries := [], results := [] }
      ∧ MessageModel.bulkCreate env userId chatId (some []) db =
        { db := db, queries := [], results := [] } := by
  intro env userId chatId db
  exact ⟨rfl, rfl⟩

/-- Claim C8: isClientReady is a pure lookup in the in-memory service state
(its embedding is a function of ServiceState alone, with no
persistence-gateway environment), and it returns true exactly when a
ClientHandle is registered for the user and the external chat client
reports a populated identity. -/
theorem C8_isClientReady_iff :
    ∀ (s : Facade.ServiceState) (userId : Nat),
      Facade.isClientReady s userId = true ↔
        ∃ c, s.clients userId = some c ∧ c.info.isSome = true := by
  intro s userId
  cases h : s.clients userId with
  | none => simp [Facade.isClientReady, h]
  | some c => simp [Facade.isClientReady, h]

/-- Claim C6: formatMessage returns the timestamp scaled by 1000 when the
input is a number below 1e12, the input unchanged when it is a number at
least 1e12, and the current time when it is not a number; a sender name
equal to the notify-name when that is a non-empty string, else the author
identifier when that is a non-empty string, else "Unknown"; a body
defaulting to the empty string when absent; and a message type defaulting
to "text" when absent. -/
theorem C6_formatMessage_normalization :
    ∀ (m : Format.RawMessage) (now : Int),
      (∀ n : Int, m.timestamp = .num n → n < 10 ^ 12 →
        (Format.formatMessage now m).timestamp = n * 1000)
      ∧ (∀ n : Int, m.timestamp = .num n → 10 ^ 12 ≤ n →
        (Format.formatMessage now m).timestamp = n)
      ∧ (m.timestamp = .notNum → (Format.formatMessage now m).timestamp = now)
      ∧ (∀ s, m.notifyName = some s → s ≠ "" →
        (Format.formatMessage now m).senderName = s)
      ∧ ((m.notifyName = none ∨ m.notifyName = some "") →
        ∀ a, m.author = some a → a ≠ "" →
        (Format.formatMessage now m).senderName = a)
      ∧ ((m.notifyName = none ∨ m.notifyName = some "") →
        (m.author = none ∨ m.author = some "") →
        (Format.formatMessage now m).senderName = "Unknown")
      ∧ (m.body = none → (Format.formatMessage now m).body = "")
      ∧ (m.type = none → (Format.formatMessage now m).messageType = "text") := by
  intro m now
  refine ⟨?_, ?_, ?_, ?_, ?_, ?_, ?_, ?_⟩
  · intro n h hlt
    simp only [Format.formatMessage, h]
    rw [if_pos (by omega)]
  · intro n h hge
    simp only [Format.formatMessage, h]
    rw [if_neg (by omega)]
  · intro h
    simp [Format.formatMessage, h]
  · intro s h hs
    simp [Format.formatMessage, jsOr, h, hs]
  · intro hn a ha has
    rcases hn with hn | hn <;> simp [Format.formatMessage, jsOr, hn, ha, has]
  · intro hn ha
    rcases hn with hn | hn <;> rcases ha with ha | ha <;>
      simp [Format.formatMessage, jsOr, hn, ha]
  · intro h
    simp [Format.formatMessage, jsOr, h]
  · intro h
    simp [Format.formatMessage, jsOr, h]

/-- A concrete raw message exercising the formatMessage claims. -/
def sampleRaw : Format.RawMessage :=
  { idSerialized := "msg1"
    fromMe := false
    notifyName := some "Alice"
    author := some "491234@c.us"
    fromJid := "491234@c.us"
    body := none
    type := none
    timestamp := .num 1700000000 }

/-- Witness for C6 at a concrete input. -/
theorem C6_formatMessage_normalization_witness :
    (Format.formatMessage 42 sampleRaw).timestamp = 1700000000 * 1000
    ∧ (Format.formatMessage 42 sampleRaw).senderName = "Alice"
    ∧ (Format.formatMessage 42 sampleRaw).body = ""
    ∧ (Format.formatMessage 42 sampleRaw).messageType = "text" :=
  ⟨(C6_formatMessage_normalization sampleRaw 42).1 1700000000 rfl (by norm_num),
   (C6_formatMessage_normalization sampleRaw 42).2.2.2.1 "Alice" rfl (by decide),
   (C6_formatMessage_normalization sampleRaw 42).2.2.2.2.2.2.1 rfl,
   (C6_formatMessage_normalization sampleRaw 42).2.2.2.2.2.2.2 rfl⟩

/-- Claim C5 counterexample: when the in-memory teardown succeeds but the
durable WhatsAppSession.delete throws, the deleteSession controller does
not report success — the catch block answers with a 500 failure response,
contradicting the claim that the error is only logged and the operation
still reports success. -/
theorem C5_counterexample :
    (Controller.deleteSession ⟨true, some "db unavailable"⟩).1 =
      Controller.HttpResponse.serverError "Failed to delete session"
    ∧ (Controller.deleteSession ⟨true, some "db unavailable"⟩).1 ≠
      Controller.HttpResponse.ok "Session deleted successfully" := by
  exact ⟨rfl, by decide⟩

/-- Claim C5 amended: deleteSession performs the disconnect (in-memory
teardown) strictly before the durable SessionRecord delete, and the durable
delete is always reached because disconnectClient never throws; but if the
durable delete errors after the teardown already succeeded, the operation
reports a 500 failure to the caller (the error is logged and then mapped to
a failure response, not swallowed as success). -/
theorem C5_deleteSession_amended :
    ∀ env : Controller.DeleteEnv,
      (Controller.deleteSession env).2 =
        [Controller.DeleteAction.disconnectClient,
         Controller.DeleteAction.sessionDelete]
      ∧ (env.deleteError = none →
        (Controller.deleteSession env).1 =
          Controller.HttpResponse.ok "Session deleted successfully")
      ∧ (∀ e, env.deleteError = some e →
        (Controller.deleteSession env).1 =
          Controller.HttpResponse.serverError "Failed to delete session") := by
  intro env
  cases h : env.deleteError with
  | none =>
    refine ⟨?_, fun _ => ?_, fun e he => ?_⟩
    · simp [Controller.deleteSession, h]
    · simp [Controller.deleteSession, h]
    · simp at he
  | some e0 =>
    refine ⟨?_, fun hn => ?_, fun e he => ?_⟩
    · simp [Controller.deleteSession, h]
    · simp at hn
    · simp [Controller.deleteSession, h]

/-- Witness for the amended C5 at a concrete environment. -/
theorem C5_deleteSession_amended_witness :
    (Controller.deleteSession ⟨true, none⟩).1 =
      Controller.HttpResponse.ok "Session deleted successfully"
    ∧ (Controller.deleteSession ⟨true, none⟩).2 =
      [Controller.DeleteAction.disconnectClient,
       Controller.DeleteAction.sessionDelete] :=
  ⟨(C5_deleteSession_amended ⟨true, none⟩).2.1 rfl,
   (C5_deleteSession_amended ⟨true, none⟩).1⟩

/-- Claim C2: when the connect attempt never settles (no Ready, no
Auth-Failure, no rejection), initializeClient returns a failure result
whose error message is the fixed timeout message, no later than the 50000
ms timeout; the ClientHandle is destroyed and removed from the registry;
and no InFlightInitialization entry remains — moreover the in-flight entry
is removed on every settlement, success or failure. -/
theorem C2_timeout_determinism :
    (∀ ev, ev = InitTimeout.ConnectEvent.silent →
      (InitTimeout.initializeClient ev).success = false
      ∧ (InitTimeout.initializeClient ev).error =
          some "Client initialization timed out"
      ∧ (InitTimeout.initializeClient ev).settleTime ≤ InitTimeout.initTimeoutMs
      ∧ (InitTimeout.initializeClient ev).clientInRegistry = false
      ∧ (InitTimeout.initializeClient ev).inFlightAfter = false)
    ∧ (∀ ev, (InitTimeout.initializeClient ev).inFlightAfter = false) := by
  constructor
  · intro ev h
    subst h
    exact ⟨rfl, rfl, Nat.le_refl _, rfl, rfl⟩
  · intro ev
    cases ev <;>
      simp only [InitTimeout.initializeClient, InitTimeout.performInitialization,
        InitTimeout.raceResult] <;>
      split <;> rfl

/-- Witness for C2 at the concrete never-settling environment. -/
theorem C2_timeout_determinism_witness :
    (InitTimeout.initializeClient InitTimeout.ConnectEvent.silent).error =
      some "Client initialization timed out"
    ∧ (InitTimeout.initializeClient
        InitTimeout.ConnectEvent.silent).clientInRegistry = false
    ∧ (InitTimeout.initializeClient
        InitTimeout.ConnectEvent.silent).inFlightAfter = false :=
  ⟨(C2_timeout_determinism.1 InitTimeout.ConnectEvent.silent rfl).2.1,
   (C2_timeout_determinism.1 InitTimeout.ConnectEvent.silent rfl).2.2.2.1,
   (C2_timeout_determinism.1 InitTimeout.ConnectEvent.silent rfl).2.2.2.2⟩

/-- Claim C3: on the Ready event the ready push (carrying phone number and
push name) is emitted and the cached QR code is cleared strictly before any
of the three durable writes starts; the writes run as a detached background
phase that settles within the 10000 ms bound; each write settles with its
own outcome (one failing write does not prevent the others); and no
failure or timeout of the background phase retracts the readiness already
signaled (the connected flag of the initialization result stays true for
every environment); at most the secondary session_saved notification is
pushed, with success false exactly when the background phase times out. -/
theorem C3_ready_before_persist :
    ∀ (info : ReadyHandler.ClientInfo) (env : ReadyHandler.ReadyEnv),
      (ReadyHandler.readyHandler info env).1.get? 0 =
        some (ReadyHandler.Action.emitReady info.wid info.pushname)
      ∧ (ReadyHandler.readyHandler info env).1.get? 1 =
        some ReadyHandler.Action.clearQR
      ∧ (∀ i w, (ReadyHandler.readyHandler info env).1.get? i =
          some (ReadyHandler.Action.startWrite w) → 2 ≤ i)
      ∧ (∀ w, w ∈ ReadyHandler.dbOperations →
          ReadyHandler.Action.startWrite w ∈ (ReadyHandler.readyHandler info env).1)
      ∧ ((ReadyHandler.WriteKind.sessionData, !env.sessionDataFails) ∈
            ReadyHandler.writeResults env
        ∧ (ReadyHandler.WriteKind.setActive, !env.setActiveFails) ∈
            ReadyHandler.writeResults env
        ∧ (ReadyHandler.WriteKind.phoneNumber, !env.phoneUpdateFails) ∈
            ReadyHandler.writeResults env)
      ∧ ReadyHandler.backgroundSettleTime env ≤ ReadyHandler.dbOpsTimeoutMs
      ∧ (ReadyHandler.dbOpsTimeoutMs < env.writesSettleTime →
          ReadyHandler.Action.emitSessionSaved false ∈
            (ReadyHandler.readyHandler info env).1)
      ∧ (ReadyHandler.readyHandler info env).2 = true := by
  intro info env
  refine ⟨rfl, rfl, ?_, ?_, ⟨?_, ?_, ?_⟩, ?_, ?_, rfl⟩
  · intro i w h
    match i with
    | 0 => simp [ReadyHandler.readyHandler] at h
    | 1 => simp [ReadyHandler.readyHandler] at h
    | Nat.succ (Nat.succ k) => omega
  · intro w hw
    fin_cases hw <;>
      simp [ReadyHandler.readyHandler, ReadyHandler.backgroundTrace,
        ReadyHandler.dbOperations]
  · simp [ReadyHandler.writeResults]
  · simp [ReadyHandler.writeResults]
  · simp [ReadyHandler.writeResults]
  · exact Nat.min_le_right _ _
  · intro h
    simp [ReadyHandler.readyHandler, ReadyHandler.backgroundTrace,
      ReadyHandler.dbOperations, Nat.not_le.mpr h]

/-- Witness for C3 at a concrete identity and environment in which one
write fails and the background phase exceeds its timeout. -/
theorem C3_ready_before_persist_witness :
    (ReadyHandler.readyHandler ⟨"491234", "Bob"⟩ ⟨false, true, false, 20000⟩).1.get? 0 =
      some (ReadyHandler.Action.emitReady "491234" "Bob")
    ∧ ReadyHandler.Action.emitSessionSaved false ∈
      (ReadyHandler.readyHandler ⟨"491234", "Bob"⟩ ⟨false, true, false, 20000⟩).1
    ∧ ReadyHandler.Action.startWrite ReadyHandler.WriteKind.setActive ∈
      (ReadyHandler.readyHandler ⟨"491234", "Bob"⟩ ⟨false, true, false, 20000⟩).1
    ∧ (ReadyHandler.readyHandler ⟨"491234", "Bob"⟩ ⟨false, true, false, 20000⟩).2 = true :=
  ⟨(C3_ready_before_persist ⟨"491234", "Bob"⟩ ⟨false, true, false, 20000⟩).1,
   (C3_ready_before_persist ⟨"491234", "Bob"⟩ ⟨false, true, false, 20000⟩).2.2.2.2.2.2.1
     (by simp [ReadyHandler.dbOpsTimeoutMs]),
   (C3_ready_before_persist ⟨"491234", "Bob"⟩ ⟨false, true, false, 20000⟩).2.2.2.1
     ReadyHandler.WriteKind.setActive (by decide),
   (C3_ready_before_persist ⟨"491234", "Bob"⟩ ⟨false, true, false, 20000⟩).2.2.2.2.2.2.2⟩

/-- Claim C9: on a duplicate (user_id, message_id) key, both the bulk
statement and its per-record fallback update only sender_name and body —
from_me, sender_number, message_type and timestamp keep their stored
values — while the single-message Message.create path additionally
refreshes sender_number, message_type and timestamp. -/
theorem C9_duplicate_key_frame :
    ∀ (env : MessageModel.BulkEnv) (r : MessageModel.Row)
      (m : MessageModel.MsgInput) (chatId : Nat),
      r.message_id = m.messageId →
      (env.bulkFails 0 = false →
        (MessageModel.bulkCreate env r.user_id chatId (some [m]) [r]).db =
          [{ r with sender_name := m.senderName, body := m.body }])
      ∧ (env.bulkFails 0 = true → env.singleFails m.messageId = false →
        (MessageModel.bulkCreate env r.user_id chatId (some [m]) [r]).db =
          [{ r with sender_name := m.senderName, body := m.body }])
      ∧ (MessageModel.create r.user_id chatId m [r] =
        [{ r with
            sender_name := m.senderName
            sender_number := m.senderNumber
            body := m.body
            message_type := jsOr m.messageType "text"
            timestamp := m.timestamp }]) := by
  intro env r m chatId hkey
  refine ⟨?_, ?_, ?_⟩
  · intro hb
    simp [MessageModel.bulkCreate, MessageModel.chunks, MessageModel.chunksAux,
      MessageModel.batchSize, MessageModel.runBatch, hb, MessageModel.applyBulk,
      MessageModel.upsertWith, MessageModel.keyMatches, hkey,
      MessageModel.bulkDupUpdate, MessageModel.toRow]
  · intro hb hs
    simp [MessageModel.bulkCreate, MessageModel.chunks, MessageModel.chunksAux,
      MessageModel.batchSize, MessageModel.runBatch, hb, MessageModel.runSingle,
      hs, MessageModel.upsertWith, MessageModel.keyMatches, hkey,
      MessageModel.bulkDupUpdate, MessageModel.toRow]
  · simp [MessageModel.create, MessageModel.upsertWith, MessageModel.keyMatches,
      hkey, MessageModel.createDupUpdate, MessageModel.toRow]

/-- A stored row with which the C9 witness collides. -/
def storedRow : MessageModel.Row :=
  { user_id := 7, chat_id := 3, message_id := "wamid.1", from_me := true,
    sender_name := "old name", sender_number := "oldnum", body := "old body",
    message_type := "image", timestamp := 1600000000000 }

/-- An incoming record colliding with storedRow on (user_id, message_id). -/
def incomingMsg : MessageModel.MsgInput :=
  { messageId := "wamid.1", fromMe := false, senderName := "new name",
    senderNumber := "newnum", body := "new body", messageType := none,
    timestamp := 1700000000000 }

/-- Witness for C9 at a concrete stored row and incoming record. -/
theorem C9_duplicate_key_frame_witness :
    (MessageModel.bulkCreate ⟨fun _ => false, fun _ => false⟩ 7 3
        (some [incomingMsg]) [storedRow]).db =
      [{ storedRow with sender_name := "new name", body := "new body" }]
    ∧ MessageModel.create 7 3 incomingMsg [storedRow] =
      [{ storedRow with
          sender_name := "new name"
          sender_number := "newnum"
          body := "new body"
          message_type := "text"
          timestamp := 1700000000000 }] :=
  ⟨(C9_duplicate_key_frame ⟨fun _ => false, fun _ => false⟩ storedRow
      incomingMsg 3 rfl).1 rfl,
   (C9_duplicate_key_frame ⟨fun _ => false, fun _ => false⟩ storedRow
      incomingMsg 3 rfl).2.2⟩

namespace Ingestion

/-- The chats loop appends one per-conversation result per iteration:
its results component is the map of processChat over the input. -/
theorem foldl_stepChat_results :
    ∀ (chats : List ChatEnv) (acc : Nat × Nat × List ChatResult),
      (chats.foldl stepChat acc).2.2 = acc.2.2 ++ chats.map processChat := by
  intro chats
  induction chats with
  | nil => intro acc; simp
  | cons c cs ih =>
    intro acc
    have hstep : (stepChat acc c).2.2 = acc.2.2 ++ [processChat c] := by
      cases h : c.createOutcome <;> simp [stepChat, h]
    rw [List.foldl_cons, ih, hstep, List.map_cons, List.append_assoc,
      List.singleton_append]

end Ingestion

/-- The first conversation of the C4 counterexample run: everything
succeeds. -/
def chatOkA : Ingestion.ChatEnv :=
  ⟨"c1@g.us", "alpha", false, .ok (), .ok [1, 2], .ok ()⟩

/-- The middle conversation of the C4 counterexample run: its
message-history fetch throws. -/
def chatFetchBoom : Ingestion.ChatEnv :=
  ⟨"c2@g.us", "beta", false, .ok (), .error "history sync failed", .ok ()⟩

/-- The last conversation of the C4 counterexample run: everything
succeeds. -/
def chatOkB : Ingestion.ChatEnv :=
  ⟨"c3@g.us", "gamma", false, .ok (), .ok [7], .ok ()⟩

/-- Claim C4 counterexample: in a three-conversation run whose middle
conversation has a throwing history fetch, every per-conversation entry —
including the failing one — reports status success; the failing
conversation is recorded with zero messages but never reports status
error, contradicting the claim that only it reports status error. -/
theorem C4_counterexample :
    ((Ingestion.fetchAndSaveMessages [chatOkA, chatFetchBoom, chatOkB]).chats.map
        (fun r => r.status) = ["success", "success", "success"])
    ∧ ((Ingestion.fetchAndSaveMessages
        [chatOkA, chatFetchBoom, chatOkB]).chats.get? 1).map (fun r => r.status) ≠
      some "error"
    ∧ ((Ingestion.fetchAndSaveMessages
        [chatOkA, chatFetchBoom, chatOkB]).chats.get? 1).map
          (fun r => r.messageCount) = some 0 := by
  refine ⟨rfl, ?_, rfl⟩
  decide

/-- Claim C4 amended: a conversation whose message-history fetch throws is
recorded with zero messages and the run continues through every remaining
conversation (no conversation aborts the run) — but the fetch error is
swallowed before the per-conversation status is assigned, so the failing
conversation also reports status success; status error arises exactly for
conversations whose ConversationRecord upsert throws, and conversations
before and after any failing one are processed unaffected. -/
theorem C4_fetch_error_isolation :
    ∀ (chats : List Ingestion.ChatEnv),
      (Ingestion.fetchAndSaveMessages chats).chats =
        chats.map Ingestion.processChat
      ∧ (Ingestion.fetchAndSaveMessages chats).chats.length = chats.length
      ∧ (∀ i c, chats.get? i = some c → c.createOutcome = .ok () →
          ∀ e, c.fetchOutcome = .error e →
          (Ingestion.fetchAndSaveMessages chats).chats.get? i =
            some ⟨c.chatIdSer, c.chatName, c.isGroup, 0, "success", none⟩)
      ∧ (∀ i c, chats.get? i = some c → c.createOutcome = .ok () →
          ∃ r, (Ingestion.fetchAndSaveMessages chats).chats.get? i = some r
            ∧ r.status = "success")
      ∧ (∀ i c e, chats.get? i = some c → c.createOutcome = .error e →
          (Ingestion.fetchAndSaveMessages chats).chats.get? i =
            some ⟨c.chatIdSer, c.chatName, c.isGroup, 0, "error", some e⟩) := by
  intro chats
  have hres : (Ingestion.fetchAndSaveMessages chats).chats =
      chats.map Ingestion.processChat := by
    simpa using Ingestion.foldl_stepChat_results chats (0, 0, [])
  refine ⟨hres, ?_, ?_, ?_, ?_⟩
  · rw [hres, List.length_map]
  · intro i c hi hc e hf
    rw [hres, List.get?_map, hi]
    simp [Ingestion.processChat, hc, hf]
  · intro i c hi hc
    refine ⟨Ingestion.processChat c, ?_, ?_⟩
    · rw [hres, List.get?_map, hi]; rfl
    · cases hf : c.fetchOutcome <;> simp [Ingestion.processChat, hc, hf]
  · intro i c e hi hc
    rw [hres, List.get?_map, hi]
    simp [Ingestion.processChat, hc]

/-- Witness for the amended C4 at the concrete three-conversation run. -/
theorem C4_fetch_error_isolation_witness :
    (Ingestion.fetchAndSaveMessages [chatOkA, chatFetchBoom, chatOkB]).chats.get? 1 =
      some ⟨"c2@g.us", "beta", false, 0, "success", none⟩
    ∧ (Ingestion.fetchAndSaveMessages
        [chatOkA, chatFetchBoom, chatOkB]).chats.length = 3 :=
  ⟨(C4_fetch_error_isolation [chatOkA, chatFetchBoom, chatOkB]).2.2.1 1
      chatFetchBoom rfl rfl "history sync failed" rfl,
   (C4_fetch_error_isolation [chatOkA, chatFetchBoom, chatOkB]).2.1⟩

namespace MessageModel

/-- The batches concatenate back to the input list. -/
theorem chunksAux_join :
    ∀ (fuel : Nat) (l : List MsgInput), l.length ≤ fuel →
      (chunksAux fuel l).join = l := by
  intro fuel
  induction fuel with
  | zero =>
    intro l h
    have : l = [] := List.eq_nil_of_length_eq_zero (Nat.le_zero.mp h)
    subst this
    rfl
  | succ f ih =>
    intro l h
    cases l with
    | nil => rfl
    | cons m rest =>
      have hlen : ((m :: rest).drop batchSize).length ≤ f := by
        simp [List.length_drop, batchSize] at *
        omega
      simp only [chunksAux, List.join_cons, ih _ hlen,
        List.take_append_drop]

/-- Every batch is non-empty and holds at most batchSize records. -/
theorem chunksAux_bounds :
    ∀ (fuel : Nat) (l : List MsgInput) (b : List MsgInput),
      b ∈ chunksAux fuel l → b.length ≤ batchSize ∧ b ≠ [] := by
  intro fuel
  induction fuel with
  | zero => intro l b hb; simp [chunksAux] at hb
  | succ f ih =>
    intro l b hb
    cases l with
    | nil => simp [chunksAux] at hb
    | cons m rest =>
      simp only [chunksAux, List.mem_cons] at hb
      rcases hb with hb | hb
      · subst hb
        constructor
        · simpa using List.length_take_le batchSize (m :: rest)
        · simp [batchSize]
      · exact ih _ b hb

/-- The queries a fallback pass over a batch issues: the accumulated
queries followed by one per-record statement for every record of the
batch, attempted regardless of earlier per-record failures. -/
theorem foldl_runSingle_queries (env : BulkEnv) (userId chatId : Nat) :
    ∀ (batch : List MsgInput) (st : BulkState),
      (batch.foldl (runSingle env userId chatId) st).queries =
        st.queries ++ batch.map (fun m => Query.single (toRow userId chatId m)) := by
  intro batch
  induction batch with
  | nil => intro st; simp
  | cons m ms ih =>
    intro st
    have hstep : (runSingle env userId chatId st m).queries =
        st.queries ++ [Query.single (toRow userId chatId m)] := by
      cases h : env.singleFails m.messageId <;> simp [runSingle, h]
    rw [List.foldl_cons, ih, hstep, List.map_cons, List.append_assoc,
      List.singleton_append]

/-- The queries one batch iteration issues: the single bulk statement for
the whole batch, followed — exactly when that statement fails — by the
per-record retries of the entire batch. -/
def batchQueries (env : BulkEnv) (userId chatId : Nat)
    (p : Nat × List MsgInput) : List Query :=
  Query.bulk (p.2.map (toRow userId chatId)) ::
    (if env.bulkFails p.1 then
      p.2.map (fun m => Query.single (toRow userId chatId m))
    else [])

/-- runBatch appends precisely the queries of batchQueries. -/
theorem runBatch_queries (env : BulkEnv) (userId chatId : Nat)
    (idx : Nat) (st : BulkState) (batch : List MsgInput) :
    (runBatch env userId chatId idx st batch).queries =
      st.queries ++ batchQueries env userId chatId (idx, batch) := by
  cases h : env.bulkFails idx with
  | false => simp [runBatch, h, batchQueries]
  | true =>
    simp only [runBatch, h, if_pos, batchQueries,
      foldl_runSingle_queries env userId chatId batch]
    simp

/-- The batch loop issues the batchQueries of each indexed batch, in
order, regardless of any failures. -/
theorem foldl_runBatch_queries (env : BulkEnv) (userId chatId : Nat) :
    ∀ (ps : List (Nat × List MsgInput)) (st : BulkState),
      ((ps.foldl (fun st p => runBatch env userId chatId p.1 st p.2) st).queries) =
        st.queries ++ (ps.map (batchQueries env userId chatId)).join := by
  intro ps
  induction ps with
  | nil => intro st; simp
  | cons p ps ih =>
    intro st
    rw [List.foldl_cons, ih, runBatch_queries]
    simp [List.append_assoc]

/-- Extracting the rows of a bulk statement from a query. -/
def bulkRowsOf : Query → Option (List Row)
  | .bulk rows => some rows
  | .single _ => none

/-- Each batch iteration contributes exactly one bulk statement. -/
theorem batchQueries_bulks (env : BulkEnv) (userId chatId : Nat)
    (p : Nat × List MsgInput) :
    (batchQueries env userId chatId p).filterMap bulkRowsOf =
      [p.2.map (toRow userId chatId)] := by
  cases h : env.bulkFails p.1 <;>
    simp [batchQueries, h, bulkRowsOf, List.filterMap_cons, List.filterMap_map,
      Function.comp]

end MessageModel

namespace MessageModel

/-- The bulk statements the batch loop issues, in order: exactly one per
batch, regardless of batch or record failures. -/
theorem foldl_runBatch_bulks (env : BulkEnv) (userId chatId : Nat) :
    ∀ (ps : List (Nat × List MsgInput)) (st : BulkState),
      ((ps.foldl (fun st p => runBatch env userId chatId p.1 st p.2)
          st).queries).filterMap bulkRowsOf =
        st.queries.filterMap bulkRowsOf ++
          ps.map (fun p => p.2.map (toRow userId chatId)) := by
  intro ps
  induction ps with
  | nil => intro st; simp
  | cons p ps ih =>
    intro st
    rw [List.foldl_cons, ih, runBatch_queries, List.filterMap_append,
      batchQueries_bulks]
    simp [List.append_assoc]

end MessageModel

/-- Mapping a function of the entries over an indexed list forgets the
indices. -/
theorem enumFrom_map_snd {a b : Type _} (f : a → b) :
    ∀ (n : Nat) (l : List a),
      (List.enumFrom n l).map (fun p => f p.2) = l.map f := by
  intro n l
  induction l generalizing n with
  | nil => rfl
  | cons x t ih => simp [List.enumFrom, ih]

/-- Claim C7: for every non-empty message list, Message.bulkCreate
partitions the list into consecutive batches of at most 100 records in
order (the batches are non-empty and concatenate back to the input) and
issues exactly one bulk upsert statement per batch, in input order,
regardless of any failure; when a batch's bulk statement fails, every
record of that batch is retried with a per-record statement — including
records after a failing one, and batches after a failing batch. -/
theorem C7_bulk_batching_fallback :
    ∀ (env : MessageModel.BulkEnv) (userId chatId : Nat)
      (msgs : List MessageModel.MsgInput) (db : List MessageModel.Row),
      msgs ≠ [] →
      (MessageModel.chunks msgs).join = msgs
      ∧ (∀ b ∈ MessageModel.chunks msgs,
          b.length ≤ MessageModel.batchSize ∧ b ≠ [])
      ∧ ((MessageModel.bulkCreate env userId chatId (some msgs)
          db).queries).filterMap MessageModel.bulkRowsOf =
        (MessageModel.chunks msgs).map
          (fun b => b.map (MessageModel.toRow userId chatId))
      ∧ (∀ p ∈ (MessageModel.chunks msgs).enum, env.bulkFails p.1 = true →
          ∀ m ∈ p.2, MessageModel.Query.single
              (MessageModel.toRow userId chatId m) ∈
            (MessageModel.bulkCreate env userId chatId (some msgs)
              db).queries) := by
  intro env userId chatId msgs db h
  have hbc : MessageModel.bulkCreate env userId chatId (some msgs) db =
      (MessageModel.chunks msgs).enum.foldl
        (fun st p => MessageModel.runBatch env userId chatId p.1 st p.2)
        ⟨db, [], []⟩ := by
    cases msgs with
    | nil => exact absurd rfl h
    | cons a l => rfl
  refine ⟨MessageModel.chunksAux_join msgs.length msgs (Nat.le_refl _),
    fun b hb => MessageModel.chunksAux_bounds msgs.length msgs b hb, ?_, ?_⟩
  · rw [hbc, MessageModel.foldl_runBatch_bulks]
    simp only [List.filterMap_nil, List.nil_append]
    exact enumFrom_map_snd _ 0 _
  · intro p hp hfail m hm
    rw [hbc, MessageModel.foldl_runBatch_queries]
    have hq : MessageModel.Query.single (MessageModel.toRow userId chatId m) ∈
        MessageModel.batchQueries env userId chatId p := by
      simp only [MessageModel.batchQueries, hfail, if_pos]
      exact List.mem_cons_of_mem _ (List.mem_map_of_mem _ hm)
    have hpmem : MessageModel.batchQueries env userId chatId p ∈
        (MessageModel.chunks msgs).enum.map
          (MessageModel.batchQueries env userId chatId) :=
      List.mem_map_of_mem _ hp
    exact List.mem_append_right _ (List.mem_join.mpr ⟨_, hpmem, hq⟩)

/-- First record of the C7 witness batch. -/
def wmA : MessageModel.MsgInput :=
  ⟨"m1", false, "A", "1", "hi", none, 1⟩

/-- Second record of the C7 witness batch; its per-record fallback insert
fails in the witness environment. -/
def wmB : MessageModel.MsgInput :=
  ⟨"m2", false, "B", "2", "yo", none, 2⟩

/-- Witness environment for C7: the bulk statement of batch 0 fails, and
the per-record insert of record m2 fails. -/
def wEnv : MessageModel.BulkEnv :=
  ⟨fun i => i == 0, fun s => s == "m2"⟩

/-- Witness for C7 at a concrete batch whose bulk statement fails: the
surviving record is still retried individually even though the other
record of the batch fails, and the batches concatenate to the input. -/
theorem C7_bulk_batching_fallback_witness :
    MessageModel.Query.single (MessageModel.toRow 5 9 wmA) ∈
      (MessageModel.bulkCreate wEnv 5 9 (some [wmA, wmB]) []).queries
    ∧ (MessageModel.chunks [wmA, wmB]).join = [wmA, wmB] :=
  ⟨(C7_bulk_batching_fallback wEnv 5 9 [wmA, wmB] [] (by decide)).2.2.2
      (0, [wmA, wmB]) (by decide) rfl wmA (by decide),
   (C7_bulk_batching_fallback wEnv 5 9 [wmA, wmB] [] (by decide)).1⟩

namespace Dedup

/-- A call entering while an in-flight initialization is registered awaits
exactly that registration: the shared state is untouched (no handle
created, no connect issued, no registry write). -/
theorem initSegment_inflight (s : OrchState) (g : Nat)
    (h : s.inFlight = some g) :
    initSegment s = (s, TaskPC.awaitingExisting g) := by
  unfold initSegment
  rw [h]

/-- A call entering with no in-flight entry and no registered handle
creates the handle, issues one connect, and registers itself. -/
theorem initSegment_fresh (s : OrchState)
    (hf : s.inFlight = none) (hc : s.hasClient = false) :
    initSegment s =
      ({ s with hasClient := true, clientReady := false,
                inFlight := some (s.connects + 1),
                connects := s.connects + 1 },
       TaskPC.awaitingOwn (s.connects + 1)) := by
  unfold initSegment
  rw [hf, hc]
  rfl

/-- The invariant of the pre-settlement window when starting from a state
with no handle and no in-flight entry: either nothing has happened yet, or
exactly one connect has been issued, its in-flight entry is registered,
and every progressed task awaits that same (first) initialization. -/
def Inv (s : OrchState) : Prop :=
  (s.connects = 0 ∧ s.inFlight = none ∧ s.hasClient = false
    ∧ ∀ pc ∈ s.tasks, pc = TaskPC.entry)
  ∨ (s.connects = 1 ∧ s.inFlight = some 1 ∧ s.hasClient = true
    ∧ s.clientReady = false
    ∧ ∀ pc ∈ s.tasks, pc = TaskPC.entry ∨ pc = TaskPC.awaitingOwn 1
        ∨ pc = TaskPC.awaitingExisting 1)

/-- The invariant is preserved by every atomic segment of every task. -/
theorem inv_stepTask (s : OrchState) (i : Nat) (h : Inv s) :
    Inv (stepTask s i) := by
  unfold stepTask
  cases hg : s.tasks.get? i with
  | none => exact h
  | some pc =>
    have hmem : pc ∈ s.tasks := List.get?_mem hg
    rcases h with ⟨hc, hf, hcl, htasks⟩ | ⟨hc, hf, hcl, hcr, htasks⟩
    · -- nothing has happened yet: the stepping task must be at entry
      have hpc := htasks pc hmem
      subst hpc
      have hseg := initSegment_fresh s hf hcl
      simp only [segment, hseg]
      right
      refine ⟨by simp [hc], by simp [hc], rfl, rfl, ?_⟩
      intro pc2 h2
      rcases List.mem_or_eq_of_mem_set h2 with h2 | h2
      · exact Or.inl (htasks pc2 h2)
      · rw [h2, hc]
        exact Or.inr (Or.inl rfl)
    · -- one initialization is registered
      rcases htasks pc hmem with hpc | hpc | hpc <;> subst hpc
      · -- an entering task observes the registered entry and awaits it
        have hseg := initSegment_inflight s 1 hf
        simp only [segment, hseg]
        right
        refine ⟨hc, hf, hcl, hcr, ?_⟩
        intro pc2 h2
        rcases List.mem_or_eq_of_mem_set h2 with h2 | h2
        · exact htasks pc2 h2
        · exact Or.inr (Or.inr h2)
      · -- the registering task is suspended: no step in this window
        simp only [segment]
        right
        refine ⟨hc, hf, hcl, hcr, ?_⟩
        intro pc2 h2
        rcases List.mem_or_eq_of_mem_set h2 with h2 | h2
        · exact htasks pc2 h2
        · exact Or.inr (Or.inl h2)
      · -- a deduplicated task is suspended: no step in this window
        simp only [segment]
        right
        refine ⟨hc, hf, hcl, hcr, ?_⟩
        intro pc2 h2
        rcases List.mem_or_eq_of_mem_set h2 with h2 | h2
        · exact htasks pc2 h2
        · exact Or.inr (Or.inr h2)

/-- The invariant is preserved by every schedule. -/
theorem inv_exec (sched : List Nat) :
    ∀ (s : OrchState), Inv s → Inv (exec s sched) := by
  induction sched with
  | nil => intro s h; exact h
  | cons i rest ih =>
    intro s h
    exact ih (stepTask s i) (inv_stepTask s i h)

/-- The initial state of n concurrent calls for a user with no handle
satisfies the invariant. -/
theorem inv_freshInit (n : Nat) : Inv (freshInit n) := by
  left
  refine ⟨rfl, rfl, rfl, ?_⟩
  intro pc h
  exact List.eq_of_mem_replicate h

end Dedup

/-- Claim C1 counterexample: with a stale non-ready ClientHandle still
registered (and no in-flight entry), two concurrent initializeClient calls
can interleave through the stale-teardown await — which suspends before
the in-flight entry is registered — so both pass the in-flight check, both
issue a connect command (two connects, not one), and they await two
different initializations (generations 1 and 2), so they need not observe
the same outcome. -/
theorem C1_counterexample :
    (Dedup.exec Dedup.staleTwo [0, 1, 0, 1]).connects = 2
    ∧ (Dedup.exec Dedup.staleTwo [0, 1, 0, 1]).connects ≠ 1
    ∧ (Dedup.exec Dedup.staleTwo [0, 1, 0, 1]).tasks =
      [Dedup.TaskPC.awaitingOwn 1, Dedup.TaskPC.awaitingOwn 2] := by
  refine ⟨rfl, by decide, rfl⟩

/-- Claim C1 amended: the in-flight registry is a map keyed by user id, so
it holds at most one InFlightInitialization per user; a call that enters
while an entry is registered awaits exactly that entry without creating a
handle or issuing a connect; and when no ClientHandle exists for the user
at the start of the window, N concurrent initializeClient calls issue at
most one connect under every interleaving — exactly one as soon as any
call has progressed — and every progressed call awaits the same (first)
initialization.  The unconditional form of the claim fails only in the
stale-handle window exhibited by the counterexample. -/
theorem C1_initialize_dedup_amended :
    (∀ (s : Dedup.OrchState) (g : Nat), s.inFlight = some g →
      Dedup.initSegment s = (s, Dedup.TaskPC.awaitingExisting g))
    ∧ (∀ (n : Nat) (sched : List Nat),
      (Dedup.exec (Dedup.freshInit n) sched).connects ≤ 1)
    ∧ (∀ (n : Nat) (sched : List Nat) (pc : Dedup.TaskPC),
      pc ∈ (Dedup.exec (Dedup.freshInit n) sched).tasks →
        pc = Dedup.TaskPC.entry ∨ pc = Dedup.TaskPC.awaitingOwn 1
          ∨ pc = Dedup.TaskPC.awaitingExisting 1)
    ∧ (∀ (n : Nat) (sched : List Nat) (pc : Dedup.TaskPC),
      pc ∈ (Dedup.exec (Dedup.freshInit n) sched).tasks →
        pc ≠ Dedup.TaskPC.entry →
        (Dedup.exec (Dedup.freshInit n) sched).connects = 1) := by
  refine ⟨Dedup.initSegment_inflight, ?_, ?_, ?_⟩
  · intro n sched
    rcases Dedup.inv_exec sched (Dedup.freshInit n) (Dedup.inv_freshInit n)
      with ⟨hc, _⟩ | ⟨hc, _⟩
    · rw [hc]; exact Nat.zero_le 1
    · rw [hc]
  · intro n sched pc hmem
    rcases Dedup.inv_exec sched (Dedup.freshInit n) (Dedup.inv_freshInit n)
      with ⟨_, _, _, htasks⟩ | ⟨_, _, _, _, htasks⟩
    · exact Or.inl (htasks pc hmem)
    · exact htasks pc hmem
  · intro n sched pc hmem hne
    rcases Dedup.inv_exec sched (Dedup.freshInit n) (Dedup.inv_freshInit n)
      with ⟨_, _, _, htasks⟩ | ⟨hc, _⟩
    · exact absurd (htasks pc hmem) hne
    · exact hc

/-- Witness for the amended C1: a concrete call entering while an entry is
registered leaves the state untouched and awaits that entry, and a
concrete two-call schedule from a fresh state issues exactly one connect. -/
theorem C1_initialize_dedup_amended_witness :
    Dedup.initSegment ⟨true, false, some 1, 1, []⟩ =
      (⟨true, false, some 1, 1, []⟩, Dedup.TaskPC.awaitingExisting 1)
    ∧ (Dedup.exec (Dedup.freshInit 2) [0, 1]).connects = 1 :=
  ⟨C1_initialize_dedup_amended.1 ⟨true, false, some 1, 1, []⟩ 1 rfl,
   C1_initialize_dedup_amended.2.2.2 2 [0, 1] (Dedup.TaskPC.awaitingOwn 1)
     (by decide) (by decide)⟩

/-- Witness for C8 at a concrete in-memory state holding one connected
client. -/
theorem C8_isClientReady_iff_witness :
    Facade.isClientReady
      ⟨fun _ => some ⟨some ⟨"491234", "Bob"⟩⟩, fun _ => none, fun _ => false⟩
      3 = true :=
  (C8_isClientReady_iff
      ⟨fun _ => some ⟨some ⟨"491234", "Bob"⟩⟩, fun _ => none, fun _ => false⟩
      3).mpr ⟨⟨some ⟨"491234", "Bob"⟩⟩, rfl, rfl⟩
